import Mathlib

/-!
Shallow embedding of the Student-Intro-Evaluator repository
(src/scorer.py and src/app.py).

Transcripts are Lean strings; Python lexical idioms (lowercasing,
substring membership, whitespace word splitting, period sentence
splitting, stripping) are modelled on lists of characters, restricted to
the ASCII fragment the rubric uses.  Python floats are modelled as exact
rationals; the decimal rounding applied by the source only for display
(round(x, 1) on wpm, round(x, 3) on ttr, round(x, 2) on rates) is elided
from the stored numeric fields, which hold the exact values the source
computes before display rounding.  Feedback strings built from f-strings
keep their branch-identifying constant text; embedded float renderings
are elided.  The sentiment analyzer is an external library (vaderSentiment),
not repository code: its output, the positive-affect ratio, is passed in
as an explicit rational parameter.
-/

/-- Python whitespace test for str.split and str.strip, ASCII fragment:
space, tab, newline, carriage return, vertical tab, form feed. -/
def isPySpace (c : Char) : Bool :=
  decide (c.toNat = 32 ∨ c.toNat = 9 ∨ c.toNat = 10 ∨ c.toNat = 13 ∨
    c.toNat = 11 ∨ c.toNat = 12)

/-- Python str.lower on one character, ASCII fragment: map A-Z to a-z. -/
def pyLowerChar (c : Char) : Char :=
  if 65 ≤ c.toNat ∧ c.toNat ≤ 90 then Char.ofNat (c.toNat + 32) else c

/-- Python str.lower, ASCII fragment. -/
def pyLower (l : List Char) : List Char := l.map pyLowerChar

/-- Does the first list occur at the head of the second list. -/
def leadsWith : List Char → List Char → Bool
  | [], _ => true
  | _ :: _, [] => false
  | a :: as, b :: bs => a == b && leadsWith as bs

/-- Python substring membership (the "needle in hay" test): does the
first list occur contiguously anywhere in the second list. -/
def hasSub (needle : List Char) : List Char → Bool
  | [] => needle.isEmpty
  | c :: t => leadsWith needle (c :: t) || hasSub needle t

/-- Substring membership with a string needle, as the scorers use it. -/
def subStr (needle : String) (hay : List Char) : Bool :=
  hasSub needle.toList hay

/-- Auxiliary for pyWords: accumulate the current word (reversed). -/
def pyWordsAux : List Char → List Char → List (List Char)
  | acc, [] => if acc.isEmpty then [] else [acc.reverse]
  | acc, c :: cs =>
    if isPySpace c then
      (if acc.isEmpty then pyWordsAux [] cs else acc.reverse :: pyWordsAux [] cs)
    else
      pyWordsAux (c :: acc) cs

/-- Python str.split() with no argument: maximal nonempty runs of
non-whitespace characters. -/
def pyWords (l : List Char) : List (List Char) := pyWordsAux [] l

/-- len(transcript.split()), the word count every rate computation uses. -/
def word_count (transcript : String) : ℕ := (pyWords transcript.toList).length

/-- Python str.count: number of non-overlapping occurrences of the
needle, scanning left to right. -/
def countOccs (needle : List Char) (hay : List Char) : ℕ :=
  match hay with
  | [] => 0
  | c :: t =>
    if leadsWith needle (c :: t) then
      1 + countOccs needle (t.drop (needle.length - 1))
    else
      countOccs needle t
termination_by hay.length
decreasing_by
  all_goals simp [List.length_drop]
  omega

/-- Python transcript.split with a period argument: split at every
period, keeping empty fragments. -/
def splitOnDot : List Char → List (List Char)
  | [] => [[]]
  | c :: cs =>
    if c = '.' then [] :: splitOnDot cs
    else
      match splitOnDot cs with
      | [] => [[c]]
      | w :: ws => (c :: w) :: ws

/-- Python str.strip(): drop whitespace from both ends. -/
def pyStrip (l : List Char) : List Char :=
  ((l.dropWhile isPySpace).reverse.dropWhile isPySpace).reverse

/-- Result dictionary of evaluate_salutation (scorer.py lines 17-35). -/
structure SalutationResult where
  score : ℕ
  level : String
  feedback : String
deriving DecidableEq

/-- Result dictionary of evaluate_keyword_presence (scorer.py lines 37-82). -/
structure KeywordResult where
  score : ℕ
  found : List String
  missing : List String
  feedback : String
deriving DecidableEq

/-- Result dictionary of evaluate_flow (scorer.py lines 84-118). -/
structure FlowResult where
  score : ℕ
  feedback : String
deriving DecidableEq

/-- Result dictionary of evaluate_speech_rate (scorer.py lines 120-139).
The wpm field stores the exact rational the source rounds for display. -/
structure SpeechResult where
  score : ℕ
  wpm : ℚ
  feedback : String
deriving DecidableEq

/-- Result dictionary of evaluate_grammar (scorer.py lines 141-166). -/
structure GrammarResult where
  score : ℕ
  errors : ℕ
  errors_per_100 : ℚ
  feedback : String
deriving DecidableEq

/-- Result dictionary of evaluate_vocabulary (scorer.py lines 168-196).
The zero-word branch of the source returns a dictionary WITHOUT the
unique_words and total_words keys; those fields are therefore optional
and none exactly in that branch. -/
structure VocabularyResult where
  score : ℕ
  ttr : ℚ
  unique_words : Option ℕ
  total_words : Option ℕ
  feedback : String
deriving DecidableEq

/-- Result dictionary of evaluate_clarity (scorer.py lines 198-222). -/
structure ClarityResult where
  score : ℕ
  filler_count : ℕ
  filler_rate : ℚ
  feedback : String
deriving DecidableEq

/-- Result dictionary of evaluate_engagement (scorer.py lines 224-245). -/
structure EngagementResult where
  score : ℕ
  positive_score : ℚ
  feedback : String
deriving DecidableEq

/-- scorer.py lines 26: the formal greeting phrase set of the salutation
scorer. -/
def good_greetings : List String :=
  [("good morning"), ("good afternoon"), ("good evening"), ("good day"),
   ("hello everyone")]

/-- evaluate_salutation (scorer.py lines 17-35): first-match-wins
cascade over lowercased transcript text. -/
def evaluate_salutation (transcript : String) : SalutationResult :=
  let text_lower := pyLower transcript.toList
  if subStr ("excited to introduce") text_lower || subStr ("feeling great") text_lower then
    { score := 5, level := ("Excellent"), feedback := ("Excellent greeting with enthusiasm") }
  else if good_greetings.any (fun g => subStr g text_lower) then
    { score := 4, level := ("Good"), feedback := ("Good formal greeting") }
  else if subStr ("hi") text_lower || subStr ("hello") text_lower then
    { score := 2, level := ("Normal"), feedback := ("Basic greeting found") }
  else
    { score := 0, level := ("None"), feedback := ("No greeting detected") }

/-- scorer.py lines 45-51: the five required keyword categories with
their trigger phrases, in source order. -/
def must_have : List (String × List String) :=
  [(("name"), [("name"), ("myself"), ("i am"), ("i\x27m")]),
   (("age"), [("years old"), ("age"), ("year old")]),
   (("school/class"), [("class"), ("school"), ("studying"), ("student")]),
   (("family"), [("family"), ("father"), ("mother"), ("parents"), ("brother"), ("sister")]),
   (("hobbies"), [("hobby"), ("hobbies"), ("enjoy"), ("like"), ("love"), ("play"), ("playing")])]

/-- scorer.py lines 61-67: the five optional keyword categories with
their trigger phrases, in source order. -/
def good_to_have : List (String × List String) :=
  [(("about family"), [("kind"), ("loving"), ("caring"), ("supportive")]),
   (("origin"), [("from"), ("live in"), ("come from")]),
   (("ambition/goal"), [("ambition"), ("goal"), ("dream"), ("want to"), ("aspire")]),
   (("fun fact"), [("fun fact"), ("interesting"), ("unique"), ("special")]),
   (("strengths"), [("good at"), ("strength"), ("achievement"), ("proud")])]

/-- Does any trigger phrase of a category occur in the lowercased text. -/
def matchesCategory (text_lower : List Char) (kws : List String) : Bool :=
  kws.any (fun kw => subStr kw text_lower)

/-- evaluate_keyword_presence (scorer.py lines 37-82): 4 points per
required category matched, 2 per optional category matched capped at 10;
found lists required matches then optional matches in source order;
missing lists the unmatched required categories. -/
def evaluate_keyword_presence (transcript : String) : KeywordResult :=
  let text_lower := pyLower transcript.toList
  let foundReq := (must_have.filter (fun p => matchesCategory text_lower p.2)).map Prod.fst
  let missingReq := (must_have.filter (fun p => !matchesCategory text_lower p.2)).map Prod.fst
  let foundGood := (good_to_have.filter (fun p => matchesCategory text_lower p.2)).map Prod.fst
  { score := 4 * foundReq.length + min (2 * foundGood.length) 10,
    found := foundReq ++ foundGood,
    missing := missingReq,
    feedback := ("Found ") ++ toString (foundReq.length + foundGood.length) ++
      (" keywords. Missing: ") ++
      (if missingReq.isEmpty then ("None") else String.intercalate (", ") missingReq) }

/-- scorer.py line 96: the greeting phrases the flow scorer checks in
the first sentence. -/
def flow_greetings : List String :=
  [("hello"), ("hi"), ("good morning"), ("good afternoon"), ("good evening")]

/-- scorer.py line 101: the name-indicator phrases of the flow scorer. -/
def name_words : List String := [("name"), ("myself"), ("i am"), ("i\x27m")]

/-- scorer.py line 108: the closing phrases of the flow scorer. -/
def closing_words : List String := [("thank"), ("thanks"), ("listening")]

/-- scorer.py line 88: sentences = stripped nonempty fragments of the
transcript split on periods. -/
def flow_sentences (transcript : String) : List (List Char) :=
  ((splitOnDot transcript.toList).map pyStrip).filter (fun s => !s.isEmpty)

/-- scorer.py lines 94-97: signal (a), greeting phrase in the first
sentence, checked only when there are at least two sentences. -/
def has_salutation_first (transcript : String) : Bool :=
  match flow_sentences transcript with
  | s0 :: _ :: _ => flow_greetings.any (fun g => subStr g (pyLower s0))
  | _ => false

/-- scorer.py lines 100-103: signal (b), name-indicator phrase in any of
the first three sentences. -/
def has_name_early (transcript : String) : Bool :=
  ((flow_sentences transcript).take 3).any
    (fun s => name_words.any (fun w => subStr w (pyLower s)))

/-- scorer.py lines 106-109: signal (c), closing phrase in the last
sentence, false when there are no sentences. -/
def has_closing (transcript : String) : Bool :=
  match (flow_sentences transcript).getLast? with
  | some sl => closing_words.any (fun w => subStr w (pyLower sl))
  | none => false

/-- evaluate_flow (scorer.py lines 84-118). -/
def evaluate_flow (transcript : String) : FlowResult :=
  let a := has_salutation_first transcript
  let b := has_name_early transcript
  let c := has_closing transcript
  if a && b && c then { score := 5, feedback := ("Excellent flow with proper order") }
  else if a && b then { score := 4, feedback := ("Good flow, missing proper closing") }
  else if b then { score := 2, feedback := ("Partial flow detected") }
  else { score := 0, feedback := ("Flow order not followed") }

/-- evaluate_speech_rate (scorer.py lines 120-139).  The source divides
by duration_sec, so a zero duration raises ZeroDivisionError: that
failure is modelled as none.  Feedback keeps the constant prefix of each
f-string. -/
def evaluate_speech_rate (transcript : String) (duration_sec : ℤ) : Option SpeechResult :=
  if duration_sec = 0 then none
  else
    let wc := word_count transcript
    let wpm : ℚ := ((wc : ℚ) / (duration_sec : ℚ)) * 60
    some (if 111 ≤ wpm ∧ wpm ≤ 140 then
        { score := 10, wpm := wpm, feedback := ("Ideal speech rate") }
      else if (141 ≤ wpm ∧ wpm ≤ 160) ∨ (81 ≤ wpm ∧ wpm ≤ 110) then
        { score := 6, wpm := wpm, feedback := ("Acceptable speech rate") }
      else if 160 < wpm then
        { score := 2, wpm := wpm, feedback := ("Too fast") }
      else
        { score := 2, wpm := wpm, feedback := ("Too slow") })

/-- evaluate_grammar, intended semantics of scorer.py lines 141-166:
matches is always the empty list (no grammar backend), so the error rate
is zero and the derived ratio is 1.  As shipped, line 144 of the source
over-indents the assignment to matches, which is an IndentationError:
the module does not import and this function can never actually run.
The definition embeds the unambiguous intended reading of those lines. -/
def evaluate_grammar (transcript : String) : GrammarResult :=
  let matchCount : ℕ := 0
  let wc := word_count transcript
  let errors_per_100 : ℚ := if 0 < wc then ((matchCount : ℚ) / (wc : ℚ)) * 100 else 0
  let grammar_score : ℚ := max 0 (1 - min (errors_per_100 / 10) 1)
  let score : ℕ :=
    if 9/10 ≤ grammar_score then 10
    else if 7/10 ≤ grammar_score then 8
    else if 5/10 ≤ grammar_score then 6
    else if 3/10 ≤ grammar_score then 4
    else 2
  { score := score, errors := matchCount, errors_per_100 := errors_per_100,
    feedback := toString matchCount ++ (" grammar errors found") }

/-- evaluate_vocabulary (scorer.py lines 168-196): type-token ratio over
lowercased whitespace tokens; the zero-word branch returns only score,
ttr and feedback (no unique_words and total_words keys). -/
def evaluate_vocabulary (transcript : String) : VocabularyResult :=
  let words := pyWords (pyLower transcript.toList)
  let total_words := words.length
  if total_words = 0 then
    { score := 0, ttr := 0, unique_words := none, total_words := none,
      feedback := ("No words found") }
  else
    let uniq := words.dedup.length
    let ttr : ℚ := (uniq : ℚ) / (total_words : ℚ)
    let score : ℕ :=
      if 9/10 ≤ ttr then 10
      else if 7/10 ≤ ttr then 8
      else if 5/10 ≤ ttr then 6
      else if 3/10 ≤ ttr then 4
      else 2
    { score := score, ttr := ttr, unique_words := some uniq,
      total_words := some total_words,
      feedback := ("TTR: ") ++ toString uniq ++ ("/") ++ toString total_words ++
        (" unique words") }

/-- scorer.py lines 14-15: the filler phrase list. -/
def FILLER_WORDS : List String :=
  [("um"), ("uh"), ("like"), ("you know"), ("so"), ("actually"), ("basically"),
   ("right"), ("i mean"), ("well"), ("kinda"), ("sort of"), ("okay"), ("hmm"), ("ah")]

/-- evaluate_clarity (scorer.py lines 198-222): substring occurrence
counts of every filler phrase over the lowercased text, rate per 100
words with a zero-word guard. -/
def evaluate_clarity (transcript : String) : ClarityResult :=
  let text_lower := pyLower transcript.toList
  let wc := word_count transcript
  let filler_count := (FILLER_WORDS.map (fun f => countOccs f.toList text_lower)).sum
  let filler_rate : ℚ := if 0 < wc then ((filler_count : ℚ) / (wc : ℚ)) * 100 else 0
  let score : ℕ :=
    if filler_rate ≤ 3 then 15
    else if filler_rate ≤ 6 then 12
    else if filler_rate ≤ 9 then 9
    else if filler_rate ≤ 12 then 6
    else 3
  { score := score, filler_count := filler_count, filler_rate := filler_rate,
    feedback := toString filler_count ++ (" filler words found") }

/-- evaluate_engagement (scorer.py lines 224-245).  The positive-affect
ratio comes from the external vaderSentiment analyzer, which is not
repository code; it is therefore an explicit parameter here, and the
full polarity breakdown the source passes through verbatim is elided. -/
def evaluate_engagement (positive_score : ℚ) : EngagementResult :=
  let score : ℕ :=
    if 9/10 ≤ positive_score then 15
    else if 7/10 ≤ positive_score then 12
    else if 5/10 ≤ positive_score then 9
    else if 3/10 ≤ positive_score then 6
    else 3
  { score := score, positive_score := positive_score,
    feedback := ("Positive sentiment") }

/-- Nested content_structure category of the report (scorer.py lines 281-287). -/
structure ContentCategory where
  score : ℕ
  max : ℕ
  salutation : SalutationResult
  keywords : KeywordResult
  flow : FlowResult
deriving DecidableEq

/-- Nested speech_rate category of the report (scorer.py lines 288-292). -/
structure SpeechCategory where
  score : ℕ
  max : ℕ
  details : SpeechResult
deriving DecidableEq

/-- Nested language_grammar category of the report (scorer.py lines 293-298). -/
structure LanguageCategory where
  score : ℕ
  max : ℕ
  grammar : GrammarResult
  vocabulary : VocabularyResult
deriving DecidableEq

/-- Nested clarity category of the report (scorer.py lines 299-303). -/
structure ClarityCategory where
  score : ℕ
  max : ℕ
  details : ClarityResult
deriving DecidableEq

/-- Nested engagement category of the report (scorer.py lines 304-308). -/
structure EngagementCategory where
  score : ℕ
  max : ℕ
  details : EngagementResult
deriving DecidableEq

/-- The categories mapping of the report (scorer.py lines 280-309). -/
structure Categories where
  content_structure : ContentCategory
  speech_rate : SpeechCategory
  language_grammar : LanguageCategory
  clarity : ClarityCategory
  engagement : EngagementCategory
deriving DecidableEq

/-- The Evaluation Report (scorer.py lines 276-312). -/
structure Report where
  overall_score : ℕ
  max_score : ℕ
  percentage : ℚ
  categories : Categories
  word_count : ℕ
  duration_sec : ℤ
deriving DecidableEq

/-- Python round(x, 2) modelled with exact rationals (round half up). -/
def round2 (x : ℚ) : ℚ := ((round (x * 100) : ℤ) : ℚ) / 100

/-- evaluate_introduction (scorer.py lines 247-314): calls every scorer
once, sums category totals, assembles the report.  A zero duration makes
the speech-rate division raise, so the whole evaluation is none then. -/
def evaluate_introduction (transcript : String) (duration_sec : ℤ)
    (positive_score : ℚ) : Option Report :=
  let salutation := evaluate_salutation transcript
  let keywords := evaluate_keyword_presence transcript
  let flow := evaluate_flow transcript
  let content_score := salutation.score + keywords.score + flow.score
  match evaluate_speech_rate transcript duration_sec with
  | none => none
  | some speech =>
    let grammar := evaluate_grammar transcript
    let vocabulary := evaluate_vocabulary transcript
    let language_score := grammar.score + vocabulary.score
    let clarity := evaluate_clarity transcript
    let engagement := evaluate_engagement positive_score
    let total_score := content_score + speech.score + language_score +
      clarity.score + engagement.score
    some { overall_score := total_score,
           max_score := 100,
           percentage := round2 (((total_score : ℚ) / 100) * 100),
           categories :=
             { content_structure :=
                 { score := content_score, max := 40, salutation := salutation,
                   keywords := keywords, flow := flow },
               speech_rate := { score := speech.score, max := 10, details := speech },
               language_grammar :=
                 { score := language_score, max := 20, grammar := grammar,
                   vocabulary := vocabulary },
               clarity := { score := clarity.score, max := 15, details := clarity },
               engagement := { score := engagement.score, max := 15, details := engagement } },
           word_count := word_count transcript,
           duration_sec := duration_sec }

/-- HTTP-level outcome of the evaluate endpoint: a 200 JSON report, a
400 client error, or a 500 server error. -/
inductive Response where
  | ok : Report → Response
  | clientError : String → Response
  | serverError : String → Response
deriving DecidableEq

/-- The evaluate endpoint (app.py lines 11-27): reject an empty or
whitespace-only transcript with a 400, otherwise run the evaluation; an
exception inside scoring (the zero-duration division) surfaces as a 500
carrying the textual description of the failure.  The duration is used
as received: the handler performs no positivity validation on it. -/
def app_evaluate (transcript : String) (duration : ℤ) (positive_score : ℚ) : Response :=
  if pyStrip transcript.toList = [] then
    Response.clientError ("Transcript cannot be empty")
  else
    match evaluate_introduction transcript duration positive_score with
    | some r => Response.ok r
    | none => Response.serverError ("division by zero")

/-- The five required category names, in source order. -/
def required_categories : List String := must_have.map Prod.fst

/-- The found list of the keyword scorer restricted to the required
categories, as the spec phrases its partition property. -/
def found_required (t : String) : List String :=
  (evaluate_keyword_presence t).found.filter (fun c => decide (c ∈ required_categories))

/-- Flow score as a function of the three signals, as the claim words it:
all three true gives 5, (a) and (b) true regardless of (c) gives 4, ONLY
(b) true gives 2, otherwise 0.  Stated from the claim, to be compared
with the source behaviour. -/
def claimed_flow_score (a b c : Bool) : ℕ :=
  if a && b && c then 5 else if a && b then 4 else if b && !a && !c then 2 else 0

/-- Flow score as a function of the three signals, matching the source
cascade: the 2-point case needs only signal (b), whatever (c) is. -/
def flow_score_from_signals (a b c : Bool) : ℕ :=
  if a && b && c then 5 else if a && b then 4 else if b then 2 else 0

/-- The scenario transcript of the spec (section 8). -/
def scenario_transcript : String :=
  "Hi, myself John. I am from Delhi. I enjoy playing football. Thank you for listening."

/-- A 24-word transcript; with duration 13 it has wpm 1440/13, which
lies strictly between 110 and 111. -/
def transcript_24_words : String :=
  "w w w w w w w w w w w w w w w w w w w w w w w w"

/-- Everything claim C1 asserts of one evaluation report: field bounds,
the category sums, the overall sum and the percentage identity.  Lower
bounds of the ranges hold by the scores being naturals. -/
def report_invariants (t : String) (d : ℤ) (pos : ℚ) : Prop :=
  ∃ r, evaluate_introduction t d pos = some r ∧
    r.categories.content_structure.max = 40 ∧
    r.categories.speech_rate.max = 10 ∧
    r.categories.language_grammar.max = 20 ∧
    r.categories.clarity.max = 15 ∧
    r.categories.engagement.max = 15 ∧
    r.categories.content_structure.salutation.score ≤ 5 ∧
    r.categories.content_structure.keywords.score ≤ 30 ∧
    r.categories.content_structure.flow.score ≤ 5 ∧
    r.categories.speech_rate.details.score ≤ 10 ∧
    r.categories.language_grammar.grammar.score ≤ 10 ∧
    r.categories.language_grammar.vocabulary.score ≤ 10 ∧
    r.categories.clarity.details.score ≤ 15 ∧
    r.categories.engagement.details.score ≤ 15 ∧
    r.categories.content_structure.score =
      r.categories.content_structure.salutation.score +
      r.categories.content_structure.keywords.score +
      r.categories.content_structure.flow.score ∧
    r.categories.content_structure.score ≤ r.categories.content_structure.max ∧
    r.categories.speech_rate.score ≤ r.categories.speech_rate.max ∧
    r.categories.language_grammar.score ≤ r.categories.language_grammar.max ∧
    r.categories.clarity.score ≤ r.categories.clarity.max ∧
    r.categories.engagement.score ≤ r.categories.engagement.max ∧
    r.overall_score =
      r.categories.content_structure.score + r.categories.speech_rate.score +
      r.categories.language_grammar.score + r.categories.clarity.score +
      r.categories.engagement.score ∧
    r.overall_score ≤ 100 ∧
    r.max_score = 100 ∧
    r.percentage = (r.overall_score : ℚ)

/-- What the divide-by-word-count scorers actually return on a zero-word
transcript: zero rates everywhere; minimum scores for speech rate (2)
and vocabulary (0); maximum scores for clarity (15) and grammar (10). -/
def zero_word_results (t : String) (d : ℤ) : Prop :=
  (∃ r, evaluate_speech_rate t d = some r ∧ r.score = 2 ∧ r.wpm = 0) ∧
  (evaluate_clarity t).score = 15 ∧ (evaluate_clarity t).filler_rate = 0 ∧
  (evaluate_vocabulary t).score = 0 ∧ (evaluate_vocabulary t).ttr = 0 ∧
  (evaluate_grammar t).score = 10 ∧ (evaluate_grammar t).errors_per_100 = 0

/-- The speech-rate band characterisation: score 10 exactly on
[111,140], 6 exactly on [141,160] or [81,110], 2 with the too-fast
feedback exactly above 160, and 2 with the too-slow feedback exactly on
the remaining region: below 81 or inside the gaps (110,111), (140,141). -/
def speech_rate_contract (t : String) (d : ℤ) : Prop :=
  ∃ r, evaluate_speech_rate t d = some r ∧
    r.wpm = ((word_count t : ℚ) / (d : ℚ)) * 60 ∧
    (r.score = 10 ↔ 111 ≤ r.wpm ∧ r.wpm ≤ 140) ∧
    (r.score = 6 ↔ (141 ≤ r.wpm ∧ r.wpm ≤ 160) ∨ (81 ≤ r.wpm ∧ r.wpm ≤ 110)) ∧
    ((r.score = 2 ∧ r.feedback = ("Too fast")) ↔ 160 < r.wpm) ∧
    ((r.score = 2 ∧ r.feedback = ("Too slow")) ↔
      (r.wpm < 81 ∨ (110 < r.wpm ∧ r.wpm < 111) ∨ (140 < r.wpm ∧ r.wpm < 141)))

/-- The vocabulary scorer contract: the zero-word branch returns only
score 0, ttr 0 and feedback (no unique_words and total_words); otherwise
ttr is distinct over total and the score bands partition the ttr range. -/
def vocabulary_contract (t : String) : Prop :=
  ((pyWords (pyLower t.toList)).length = 0 →
    evaluate_vocabulary t =
      { score := 0, ttr := 0, unique_words := none, total_words := none,
        feedback := ("No words found") }) ∧
  (0 < (pyWords (pyLower t.toList)).length →
    (evaluate_vocabulary t).ttr =
      ((pyWords (pyLower t.toList)).dedup.length : ℚ) /
        ((pyWords (pyLower t.toList)).length : ℚ) ∧
    (evaluate_vocabulary t).unique_words = some (pyWords (pyLower t.toList)).dedup.length ∧
    (evaluate_vocabulary t).total_words = some (pyWords (pyLower t.toList)).length ∧
    ((evaluate_vocabulary t).score = 10 ↔ 9/10 ≤ (evaluate_vocabulary t).ttr) ∧
    ((evaluate_vocabulary t).score = 8 ↔
      7/10 ≤ (evaluate_vocabulary t).ttr ∧ (evaluate_vocabulary t).ttr < 9/10) ∧
    ((evaluate_vocabulary t).score = 6 ↔
      5/10 ≤ (evaluate_vocabulary t).ttr ∧ (evaluate_vocabulary t).ttr < 7/10) ∧
    ((evaluate_vocabulary t).score = 4 ↔
      3/10 ≤ (evaluate_vocabulary t).ttr ∧ (evaluate_vocabulary t).ttr < 5/10) ∧
    ((evaluate_vocabulary t).score = 2 ↔ (evaluate_vocabulary t).ttr < 3/10))

/-- A codepoint below the surrogate range round-trips through Char.ofNat. -/
theorem toNat_ofNat_small {n : ℕ} (h : n < 55296) : (Char.ofNat n).toNat = n := by
  have hv : n.isValidChar := Or.inl h
  rw [Char.ofNat, dif_pos hv]
  simp [Char.ofNatAux, Char.toNat, UInt32.toNat]

/-- Lowercasing a character does not change whether it is whitespace. -/
theorem isPySpace_pyLowerChar (c : Char) : isPySpace (pyLowerChar c) = isPySpace c := by
  unfold pyLowerChar
  split
  · rename_i h
    have h1 : (Char.ofNat (c.toNat + 32)).toNat = c.toNat + 32 := toNat_ofNat_small (by omega)
    unfold isPySpace
    rw [h1, decide_eq_decide]
    constructor <;> intro h2 <;> omega
  · rfl

/-- Lowercasing the text does not change the number of words produced by
the whitespace split, whatever the pending accumulators are. -/
theorem pyWordsAux_length_lower (s : List Char) :
    ∀ a1 a2 : List Char, a1.isEmpty = a2.isEmpty →
      (pyWordsAux a1 (pyLower s)).length = (pyWordsAux a2 s).length := by
  induction s with
  | nil =>
    intro a1 a2 h
    show (pyWordsAux a1 (pyLower [])).length = (pyWordsAux a2 []).length
    simp only [pyLower, List.map_nil, pyWordsAux]
    rw [h]
    split <;> simp
  | cons c cs ih =>
    intro a1 a2 h
    show (pyWordsAux a1 (pyLower (c :: cs))).length = (pyWordsAux a2 (c :: cs)).length
    simp only [pyLower, List.map_cons]
    show (pyWordsAux a1 (pyLowerChar c :: pyLower cs)).length = _
    simp only [pyWordsAux, isPySpace_pyLowerChar c]
    by_cases hsp : isPySpace c = true
    · rw [if_pos hsp, if_pos hsp, h]
      by_cases he : a2.isEmpty = true
      · rw [if_pos he, if_pos he]
        exact ih [] [] rfl
      · rw [if_neg he, if_neg he]
        simp only [List.length_cons]
        rw [ih [] [] rfl]
    · rw [if_neg hsp, if_neg hsp]
      exact ih (pyLowerChar c :: a1) (c :: a2) (by simp)

/-- The vocabulary scorer counts as many words as every other scorer. -/
theorem vocab_words_length (t : String) :
    (pyWords (pyLower t.toList)).length = word_count t :=
  pyWordsAux_length_lower t.toList [] [] rfl

/-- The salutation score never exceeds its 5-point bound. -/
theorem salutation_score_le (t : String) : (evaluate_salutation t).score ≤ 5 := by
  unfold evaluate_salutation
  dsimp only
  repeat' split
  all_goals simp

/-- The flow score never exceeds its 5-point bound. -/
theorem flow_score_le (t : String) : (evaluate_flow t).score ≤ 5 := by
  unfold evaluate_flow
  dsimp only
  repeat' split
  all_goals simp

/-- The keyword score never exceeds its 30-point bound. -/
theorem keyword_score_le (t : String) : (evaluate_keyword_presence t).score ≤ 30 := by
  unfold evaluate_keyword_presence
  dsimp only
  have h1 : ((must_have.filter (fun p => matchesCategory (pyLower t.toList) p.2)).map Prod.fst).length ≤ 5 := by
    rw [List.length_map]
    calc (must_have.filter (fun p => matchesCategory (pyLower t.toList) p.2)).length
        ≤ must_have.length := List.length_filter_le _ _
      _ = 5 := by decide
  omega

/-- The grammar scorer is a fixed placeholder: zero errors, zero rate,
score 10, on every transcript. -/
theorem grammar_eval (t : String) :
    evaluate_grammar t =
      { score := 10, errors := 0, errors_per_100 := 0,
        feedback := ("0 grammar errors found") } := by
  unfold evaluate_grammar
  dsimp only
  have h : (if 0 < word_count t then ((0 : ℕ) : ℚ) / ((word_count t : ℕ) : ℚ) * 100 else 0) = 0 := by
    split <;> simp
  rw [h]
  norm_num
  rfl

/-- The vocabulary score never exceeds its 10-point bound. -/
theorem vocab_score_le (t : String) : (evaluate_vocabulary t).score ≤ 10 := by
  unfold evaluate_vocabulary
  dsimp only
  repeat' split
  all_goals simp

/-- The clarity score never exceeds its 15-point bound. -/
theorem clarity_score_le (t : String) : (evaluate_clarity t).score ≤ 15 := by
  unfold evaluate_clarity
  dsimp only
  repeat' split
  all_goals simp

/-- The engagement score never exceeds its 15-point bound. -/
theorem engagement_score_le (p : ℚ) : (evaluate_engagement p).score ≤ 15 := by
  unfold evaluate_engagement
  dsimp only
  repeat' split
  all_goals simp

/-- With a nonzero duration the speech-rate scorer returns a result, and
its score never exceeds its 10-point bound. -/
theorem speech_rate_some (t : String) {d : ℤ} (hd : d ≠ 0) :
    ∃ r, evaluate_speech_rate t d = some r ∧ r.score ≤ 10 := by
  unfold evaluate_speech_rate
  rw [if_neg hd]
  refine ⟨_, rfl, ?_⟩
  repeat' split
  all_goals simp

/-- Dividing a natural total by 100 and scaling back, then rounding to
two decimals, returns the total itself. -/
theorem round2_of_natCast (n : ℕ) : round2 (((n : ℚ) / 100) * 100) = (n : ℚ) := by
  rw [div_mul_cancel₀ _ (by norm_num : (100:ℚ) ≠ 0)]
  unfold round2
  rw [show ((n : ℚ) * 100) = (((n * 100 : ℕ) : ℤ) : ℚ) by push_cast; ring]
  rw [round_intCast]
  push_cast
  field_simp

/-- Claim C1: for every transcript and positive duration the Evaluation
Report exists and satisfies all invariants: every sub-score and category
total lies within its declared bound, content_structure equals
salutation + keywords + flow, overall_score equals the sum of the five
category totals and is at most 100, and the percentage field equals the
overall score numerically. -/
theorem c1_report_invariants (t : String) (d : ℤ) (pos : ℚ) (hd : 0 < d) :
    report_invariants t d pos := by
  have hd0 : d ≠ 0 := by omega
  obtain ⟨s, hs, hs10⟩ := speech_rate_some t hd0
  have hsal := salutation_score_le t
  have hkw := keyword_score_le t
  have hfl := flow_score_le t
  have hgr : (evaluate_grammar t).score = 10 := by rw [grammar_eval]
  have hvoc := vocab_score_le t
  have hcl := clarity_score_le t
  have hen := engagement_score_le pos
  unfold report_invariants evaluate_introduction
  rw [hs]
  dsimp only
  refine ⟨_, rfl, rfl, rfl, rfl, rfl, rfl, hsal, hkw, hfl, hs10, ?_, hvoc, hcl, hen,
    rfl, ?_, hs10, ?_, hcl, hen, rfl, ?_, rfl, ?_⟩
  · dsimp only; omega
  · dsimp only; omega
  · dsimp only; omega
  · dsimp only; omega
  · dsimp only; exact round2_of_natCast _

/-- Witness for claim C1 at a concrete input. -/
theorem c1_witness : report_invariants ("hello") 52 (1/2) :=
  c1_report_invariants ("hello") 52 (1/2) (by decide)

/-- Counterexample for claim C2 as stated: on the zero-word transcript
the clarity scorer returns 15 and the grammar scorer returns 10, which
are their MAXIMUM band scores, not their minimum scores (3 and 2). -/
theorem c2_minimum_cex :
    word_count ("") = 0 ∧
    (evaluate_clarity ("")).score = 15 ∧ (evaluate_clarity ("")).score ≠ 3 ∧
    (evaluate_grammar ("")).score = 10 ∧ (evaluate_grammar ("")).score ≠ 2 := by
  have hc : word_count ("") = 0 := by decide
  have h1 : (evaluate_clarity ("")).score = 15 := by
    unfold evaluate_clarity
    dsimp only
    rw [hc]
    norm_num
  have h2 : (evaluate_grammar ("")).score = 10 := by rw [grammar_eval]
  exact ⟨hc, h1, by rw [h1]; decide, h2, by rw [h2]; decide⟩

/-- Claim C2 (amended): on a zero-word transcript no divide-by-word-count
scorer fails and every rate is zero; speech rate and vocabulary return
their minimum scores (2 with wpm 0, 0 with ttr 0), while clarity and
grammar return their maximum scores (15 and 10), because the zero rate
falls in their best band. -/
theorem c2_zero_words (t : String) (d : ℤ) (h0 : word_count t = 0) (hd : d ≠ 0) :
    zero_word_results t d := by
  have hv : (pyWords (pyLower t.toList)).length = 0 := by rw [vocab_words_length, h0]
  unfold zero_word_results
  refine ⟨?_, ?_, ?_, ?_, ?_, ?_, ?_⟩
  · unfold evaluate_speech_rate
    rw [if_neg hd]
    dsimp only
    rw [h0]
    have hw : (((0 : ℕ) : ℚ) / (d : ℚ)) * 60 = 0 := by simp
    rw [hw]
    rw [if_neg (by norm_num), if_neg (by norm_num), if_neg (by norm_num)]
    exact ⟨_, rfl, rfl, rfl⟩
  · unfold evaluate_clarity
    dsimp only
    rw [h0]
    norm_num
  · unfold evaluate_clarity
    dsimp only
    rw [h0]
    norm_num
  · unfold evaluate_vocabulary
    dsimp only
    rw [if_pos hv]
  · unfold evaluate_vocabulary
    dsimp only
    rw [if_pos hv]
  · rw [grammar_eval]
  · rw [grammar_eval]

/-- Witness for claim C2 at a concrete input. -/
theorem c2_witness : zero_word_results ("") 52 :=
  c2_zero_words ("") 52 (by decide) (by decide)

/-- Counterexample for claim C3 as stated: on the scenario transcript
the flow score is 5, not the claimed 2. -/
theorem c3_flow_cex :
    (evaluate_flow scenario_transcript).score = 5 ∧
    (evaluate_flow scenario_transcript).score ≠ 2 := by decide

/-- Claim C3 (amended): on the scenario transcript the salutation score
is 2 and the keyword categories found include name, hobbies and origin,
but the flow score is 5, because the flow greeting list contains the
bare word hi, so the salutation-first signal is TRUE along with
name-early and closing. -/
theorem c3_scenario :
    (evaluate_salutation scenario_transcript).score = 2 ∧
    ("name") ∈ (evaluate_keyword_presence scenario_transcript).found ∧
    ("hobbies") ∈ (evaluate_keyword_presence scenario_transcript).found ∧
    ("origin") ∈ (evaluate_keyword_presence scenario_transcript).found ∧
    has_salutation_first scenario_transcript = true ∧
    has_name_early scenario_transcript = true ∧
    has_closing scenario_transcript = true ∧
    (evaluate_flow scenario_transcript).score = 5 := by decide

/-- Claim C4: on every transcript the grammar scorer reports 0 errors
and errors_per_100 = 0 (also in the guarded zero-word branch) and its
score is 10.  This is the intended semantics of scorer.py lines 141-166;
the shipped file over-indents line 144, an IndentationError that stops
the module from importing at all. -/
theorem c4_grammar_behavior (t : String) :
    (evaluate_grammar t).errors = 0 ∧ (evaluate_grammar t).errors_per_100 = 0 ∧
      (evaluate_grammar t).score = 10 := by
  rw [grammar_eval]
  exact ⟨rfl, rfl, rfl⟩

/-- Counterexample for claim C5 as stated: a transcript whose signals
are (a) false, (b) true, (c) true gets flow score 2 from the source,
while the claimed mapping (only (b) true gives 2, otherwise 0) gives 0. -/
theorem c5_flow_cex :
    has_salutation_first ("Myself John. Thank you.") = false ∧
    has_name_early ("Myself John. Thank you.") = true ∧
    has_closing ("Myself John. Thank you.") = true ∧
    (evaluate_flow ("Myself John. Thank you.")).score = 2 ∧
    claimed_flow_score false true true = 0 := by decide

/-- Claim C5 (amended): the flow score is the stated function of the
three signals with the 2-point case requiring only signal (b) — b true
and not both a and b, regardless of c — and signal (a) defaults to false
with fewer than two sentences, signal (c) to false with none. -/
theorem c5_flow_amended (t : String) :
    (evaluate_flow t).score =
      flow_score_from_signals (has_salutation_first t) (has_name_early t) (has_closing t) ∧
    ((flow_sentences t).length < 2 → has_salutation_first t = false) ∧
    (flow_sentences t = [] → has_closing t = false) := by
  refine ⟨?_, ?_, ?_⟩
  · cases ha : has_salutation_first t <;> cases hb : has_name_early t <;>
      cases hc : has_closing t <;>
      simp [evaluate_flow, flow_score_from_signals, ha, hb, hc]
  · intro hlen
    rcases hs : flow_sentences t with _ | ⟨x, _ | ⟨y, rest⟩⟩
    · simp [has_salutation_first, hs]
    · simp [has_salutation_first, hs]
    · rw [hs] at hlen
      simp at hlen
      omega
  · intro hnil
    simp [has_closing, hnil]

/-- Witness for claim C5: both default clauses discharged at concrete
inputs through the theorem. -/
theorem c5_witness :
    has_salutation_first ("Hi") = false ∧ has_closing ("") = false :=
  ⟨(c5_flow_amended ("Hi")).2.1 (by decide), (c5_flow_amended ("")).2.2 (by decide)⟩

/-- Claim C6: the endpoint performs no duration validation.  With a
zero duration on a nonempty transcript the speech-rate division raises
and the request is answered with a 500 server error, not a client-error
rejection; with any nonzero duration, negative included, the request is
scored and answered 200.  Non-positive durations are never rejected
before reaching the speech-rate scorer. -/
theorem c6_duration_unchecked :
    evaluate_speech_rate ("hello world") 0 = none ∧
    app_evaluate ("hello world") 0 0 = Response.serverError ("division by zero") ∧
    (∀ d : ℤ, ∀ p : ℚ, d ≠ 0 → ∃ r, app_evaluate ("hello world") d p = Response.ok r) := by
  refine ⟨by decide, by decide, ?_⟩
  intro d p hd
  obtain ⟨s, hs, _⟩ := speech_rate_some ("hello world") hd
  unfold app_evaluate
  rw [if_neg (by decide)]
  unfold evaluate_introduction
  rw [hs]
  exact ⟨_, rfl⟩

/-- Witness for claim C6: a negative duration is accepted and scored. -/
theorem c6_witness : ∃ r, app_evaluate ("hello world") (-10) (1/2) = Response.ok r :=
  c6_duration_unchecked.2.2 (-10) (1/2) (by decide)

/-- Counterexample for claim C7 as stated: the 24-word transcript with
duration 13 has wpm 1440/13, which exceeds 81 yet falls through every
band to the too-slow case, so the otherwise-case is not only below 81. -/
theorem c7_gap_cex :
    evaluate_speech_rate transcript_24_words 13 =
      some { score := 2, wpm := 1440/13, feedback := ("Too slow") } ∧
    (81 : ℚ) ≤ 1440/13 := by
  constructor
  · have hwc : word_count transcript_24_words = 24 := by decide
    unfold evaluate_speech_rate
    rw [if_neg (by decide)]
    dsimp only
    rw [hwc]
    rw [show (((24 : ℕ) : ℚ) / ((13 : ℤ) : ℚ)) * 60 = 1440/13 by push_cast; norm_num]
    rw [if_neg (by norm_num), if_neg (by norm_num), if_neg (by norm_num)]
  · norm_num

/-- Claim C7 (amended): with a positive duration the speech-rate result
exists, wpm is word count over duration times 60, the score is 10
exactly on [111,140], 6 exactly on [141,160] or [81,110], 2 with
too-fast feedback exactly above 160, and 2 with too-slow feedback
exactly on the remaining region: below 81 or in the band gaps (110,111)
and (140,141) — not only below 81. -/
theorem c7_speech_bands (t : String) (d : ℤ) (hd : 0 < d) : speech_rate_contract t d := by
  have hd0 : d ≠ 0 := by omega
  unfold speech_rate_contract evaluate_speech_rate
  rw [if_neg hd0]
  dsimp only
  set w : ℚ := ((word_count t : ℚ) / (d : ℚ)) * 60 with hw
  split_ifs with h1 h2 h3
  · refine ⟨_, rfl, rfl, ⟨fun _ => h1, fun _ => rfl⟩, ?_, ?_, ?_⟩
    · constructor
      · intro h; simp at h
      · rintro (⟨ha, hb⟩ | ⟨ha, hb⟩) <;> exfalso
        · linarith [h1.2]
        · linarith [h1.1]
    · constructor
      · rintro ⟨hsc, _⟩; simp at hsc
      · intro h; exfalso; linarith [h1.2]
    · constructor
      · rintro ⟨hsc, _⟩; simp at hsc
      · rintro (h | ⟨ha, hb⟩ | ⟨ha, hb⟩) <;> exfalso <;> linarith [h1.1, h1.2]
  · refine ⟨_, rfl, rfl, ?_, ⟨fun _ => h2, fun _ => rfl⟩, ?_, ?_⟩
    · constructor
      · intro h; simp at h
      · intro hb; exact absurd hb h1
    · constructor
      · rintro ⟨hsc, _⟩; simp at hsc
      · intro h
        rcases h2 with ⟨h2a, h2b⟩ | ⟨h2a, h2b⟩ <;> exfalso <;> linarith
    · constructor
      · rintro ⟨hsc, _⟩; simp at hsc
      · rintro (h | ⟨ha, hb⟩ | ⟨ha, hb⟩) <;>
          rcases h2 with ⟨h2a, h2b⟩ | ⟨h2a, h2b⟩ <;> exfalso <;> linarith
  · refine ⟨_, rfl, rfl, ?_, ?_, ⟨fun _ => h3, fun _ => ⟨rfl, rfl⟩⟩, ?_⟩
    · constructor
      · intro h; simp at h
      · rintro ⟨ha, hb⟩; exfalso; linarith
    · constructor
      · intro h; simp at h
      · rintro (⟨ha, hb⟩ | ⟨ha, hb⟩) <;> exfalso <;> linarith
    · constructor
      · rintro ⟨_, hfb⟩; simp at hfb
      · rintro (h | ⟨ha, hb⟩ | ⟨ha, hb⟩) <;> exfalso <;> linarith
  · have hr1 : ¬(111 ≤ w ∧ w ≤ 140) := h1
    have hr2 : ¬((141 ≤ w ∧ w ≤ 160) ∨ (81 ≤ w ∧ w ≤ 110)) := h2
    push_neg at h1 h2
    have hregion : w < 81 ∨ (110 < w ∧ w < 111) ∨ (140 < w ∧ w < 141) := by
      by_cases hw81 : w < 81
      · exact Or.inl hw81
      · push_neg at hw81
        have h110 : 110 < w := h2.2 hw81
        by_cases hw111 : w < 111
        · exact Or.inr (Or.inl ⟨h110, hw111⟩)
        · push_neg at hw111
          have h140 : 140 < w := h1 hw111
          by_cases hw141 : w < 141
          · exact Or.inr (Or.inr ⟨h140, hw141⟩)
          · push_neg at hw141
            exact absurd (h2.1 hw141) h3
    refine ⟨_, rfl, rfl, ?_, ?_, ?_, ⟨fun _ => hregion, fun _ => ⟨rfl, rfl⟩⟩⟩
    · constructor
      · intro h; simp at h
      · intro hb; exact absurd hb hr1
    · constructor
      · intro h; simp at h
      · intro hb; exact absurd hb hr2
    · constructor
      · rintro ⟨_, hfb⟩; simp at hfb
      · intro h; exact absurd h h3

/-- Witness for claim C7 at a concrete input. -/
theorem c7_witness : speech_rate_contract ("hello") 52 :=
  c7_speech_bands ("hello") 52 (by decide)

/-- Claim C8: an empty or whitespace-only transcript (a missing one
arrives as the empty default) is rejected with the client error message
before any scorer runs. -/
theorem c8_empty_rejected (t : String) (d : ℤ) (p : ℚ) (h : pyStrip t.toList = []) :
    app_evaluate t d p = Response.clientError ("Transcript cannot be empty") := by
  unfold app_evaluate
  rw [if_pos h]

/-- Witness for claim C8 at a concrete whitespace-only input. -/
theorem c8_witness :
    pyStrip ((" \t ") : String).toList = [] ∧
    app_evaluate (" \t ") 52 (1/2) = Response.clientError ("Transcript cannot be empty") :=
  ⟨by decide, c8_empty_rejected (" \t ") 52 (1/2) (by decide)⟩

/-- Claim C9: for every transcript, the found list restricted to the
required categories and the missing list partition the required-category
set: every required category is in exactly one of the two. -/
theorem c9_partition (t : String) :
    (∀ c, c ∈ required_categories ↔
      (c ∈ found_required t ∨ c ∈ (evaluate_keyword_presence t).missing)) ∧
    (∀ c, ¬(c ∈ found_required t ∧ c ∈ (evaluate_keyword_presence t).missing)) := by
  set p : String × List String → Bool :=
    fun q => matchesCategory (pyLower t.toList) q.2 with hp
  have hfound : (evaluate_keyword_presence t).found =
      (must_have.filter p).map Prod.fst ++ (good_to_have.filter p).map Prod.fst := rfl
  have hmiss : (evaluate_keyword_presence t).missing =
      (must_have.filter (fun q => !p q)).map Prod.fst := rfl
  have hgoodnames : ∀ c ∈ good_to_have.map Prod.fst, c ∉ required_categories := by decide
  have hAsub : ((must_have.filter p).map Prod.fst) ⊆ required_categories :=
    List.map_subset _ (List.filter_subset' _)
  have hBsub : ((good_to_have.filter p).map Prod.fst) ⊆ good_to_have.map Prod.fst :=
    List.map_subset _ (List.filter_subset' _)
  have hFR : ∀ c : String, c ∈ found_required t ↔ c ∈ (must_have.filter p).map Prod.fst := by
    intro c
    unfold found_required
    rw [hfound, List.filter_append]
    rw [List.mem_append]
    constructor
    · rintro (hin | hin)
      · exact (List.mem_filter.mp hin).1
      · exfalso
        have h1 := List.mem_filter.mp hin
        have h2 : c ∈ required_categories := of_decide_eq_true h1.2
        exact hgoodnames c (hBsub h1.1) h2
    · intro hin
      refine Or.inl (List.mem_filter.mpr ⟨hin, ?_⟩)
      exact decide_eq_true (hAsub hin)
  have hUnion : ∀ c : String, c ∈ required_categories ↔
      (c ∈ (must_have.filter p).map Prod.fst ∨
        c ∈ (must_have.filter (fun q => !p q)).map Prod.fst) := by
    intro c
    unfold required_categories
    simp only [List.mem_map, List.mem_filter, Bool.not_eq_true']
    constructor
    · rintro ⟨x, hx, rfl⟩
      by_cases hpx : p x = true
      · exact Or.inl ⟨x, ⟨hx, hpx⟩, rfl⟩
      · exact Or.inr ⟨x, ⟨hx, by simpa using hpx⟩, rfl⟩
    · rintro (⟨x, ⟨hx, _⟩, rfl⟩ | ⟨x, ⟨hx, _⟩, rfl⟩) <;> exact ⟨x, hx, rfl⟩
  have hNodup : (must_have.map Prod.fst).Nodup := by decide
  have hDisj : ∀ c : String, ¬(c ∈ (must_have.filter p).map Prod.fst ∧
      c ∈ (must_have.filter (fun q => !p q)).map Prod.fst) := by
    rintro c ⟨hc1, hc2⟩
    simp only [List.mem_map, List.mem_filter, Bool.not_eq_true'] at hc1 hc2
    obtain ⟨x, ⟨hx, hpx⟩, hxc⟩ := hc1
    obtain ⟨y, ⟨hy, hpy⟩, hyc⟩ := hc2
    have hxy : x = y := List.inj_on_of_nodup_map hNodup hx hy (by rw [hxc, hyc])
    rw [hxy, hpy] at hpx
    exact absurd hpx (by decide)
  constructor
  · intro c
    rw [hFR c, hmiss]
    exact hUnion c
  · intro c
    rw [hFR c, hmiss]
    exact hDisj c

/-- Witness for claim C9 at a concrete input: name is covered, age is
not in both lists. -/
theorem c9_witness :
    (("name") ∈ found_required ("myself Sam") ∨
      ("name") ∈ (evaluate_keyword_presence ("myself Sam")).missing) ∧
    ¬(("age") ∈ found_required ("myself Sam") ∧
      ("age") ∈ (evaluate_keyword_presence ("myself Sam")).missing) :=
  ⟨((c9_partition ("myself Sam")).1 ("name")).mp (by decide),
    (c9_partition ("myself Sam")).2 ("age")⟩

/-- Counterexample for claim C10 as stated: on the empty transcript the
result does NOT contain unique_words and total_words (the source
dictionary omits those keys in the zero-word branch). -/
theorem c10_empty_cex :
    (evaluate_vocabulary ("")).unique_words = none ∧
    (evaluate_vocabulary ("")).total_words = none ∧
    (evaluate_vocabulary ("")).score = 0 ∧
    (evaluate_vocabulary ("")).ttr = 0 := by decide

/-- Claim C10 (amended): the vocabulary result always carries score, ttr
and feedback; unique_words and total_words are present exactly when the
transcript has at least one word; an empty transcript yields score 0 and
ttr 0; otherwise ttr is the distinct-over-total ratio and the band iffs
hold (at least 0.9 gives 10, 0.7 gives 8, 0.5 gives 6, 0.3 gives 4,
else 2). -/
theorem c10_vocabulary (t : String) : vocabulary_contract t := by
  unfold vocabulary_contract
  constructor
  · intro h0
    unfold evaluate_vocabulary
    dsimp only
    rw [if_pos h0]
  · intro hpos
    have h0 : ¬((pyWords (pyLower t.toList)).length = 0) := by omega
    have hE : evaluate_vocabulary t =
        (let uniq := (pyWords (pyLower t.toList)).dedup.length
         let total := (pyWords (pyLower t.toList)).length
         let v : ℚ := (uniq : ℚ) / (total : ℚ)
         ({ score := if 9/10 ≤ v then 10 else if 7/10 ≤ v then 8 else if 5/10 ≤ v then 6
              else if 3/10 ≤ v then 4 else 2,
            ttr := v, unique_words := some uniq, total_words := some total,
            feedback := ("TTR: ") ++ toString uniq ++ ("/") ++ toString total ++
              (" unique words") } : VocabularyResult)) := by
      unfold evaluate_vocabulary
      dsimp only
      rw [if_neg h0]
    rw [hE]
    dsimp only
    set v : ℚ := (((pyWords (pyLower t.toList)).dedup.length : ℕ) : ℚ) /
      (((pyWords (pyLower t.toList)).length : ℕ) : ℚ) with hv
    refine ⟨rfl, rfl, rfl, ?_, ?_, ?_, ?_, ?_⟩ <;>
      split_ifs with h9 h7 h5 h3 <;>
      (try push_neg at h9) <;> (try push_neg at h7) <;>
      (try push_neg at h5) <;> (try push_neg at h3) <;>
      constructor <;> intro h <;>
      first
        | rfl
        | assumption
        | (simp at h ; done)
        | (exact ⟨by linarith, by linarith⟩)
        | (exfalso ; rcases h with ⟨h1, h2⟩ ; linarith)
        | (exfalso ; linarith)

/-- Witness for claim C10: ten words with five distinct ones score 6. -/
theorem c10_witness :
    (evaluate_vocabulary ("a b c d e a b c d e")).score = 6 := by
  have h := (c10_vocabulary ("a b c d e a b c d e")).2 (by decide)
  obtain ⟨httr, -, -, -, -, h6, -, -⟩ := h
  apply h6.mpr
  rw [httr]
  rw [show ((pyWords (pyLower (("a b c d e a b c d e") : String).toList)).dedup.length) = 5
        from by decide,
      show ((pyWords (pyLower (("a b c d e a b c d e") : String).toList)).length) = 10
        from by decide]
  norm_num
